import Mathlib

/-!
Verification of the event-emitter core of `rs-events` (`src/events.rs`).

The embedding below translates the data model and operations of the Rust
source into executable Lean definitions:

* the emitter's handler table `events: Arc<RwLock<HashMap<String, Vec<Handler>>>>`
  becomes an association list `List (String × List HB)` with the HashMap
  operations (`entry(..).or_default().push`, `get(..).cloned()`, `remove`)
  translated as `alInsertAppend`, `alLookup`, `alRemove`;
* the `AtomicUsize` counters captured by the `times!` wrappers become an
  explicit store `List (Nat × Nat)` of values modulo `2^64`, with
  `fetch_sub(1, SeqCst)` translated as `fetchSub` (wrapping subtraction
  that returns the pre-decrement value);
* handler bodies are represented by their observable behaviour (`HB`):
  a plain body, a body that panics, the typed wrapper generated by `on!`
  (which panics with a descriptive message on arity/type mismatch), and
  the counted wrappers generated by `times!`;
* `EventEmitter::emit` (lines 48-79) becomes `emit`/`runHandlers`.  One
  point needs care: in the source the read guard `lock` obtained on line 49
  is a local binding that is dropped only when `emit` returns, so every
  handler body runs while the emitter's `RwLock` is still read-locked.  A
  handler that re-acquires the same lock in write mode — as the `times!`
  wrapper does on its exhausting invocation (`events.write()`, lines
  339-343/373-377) — therefore blocks the thread against its own read guard
  (`std::sync::RwLock` documents that re-entrant acquisition deadlocks or
  panics; with the glibc rwlock it deadlocks).  The model makes this
  observable as the `EmitOutcome.deadlock` result: the dispatch loop stops
  at the handler that attempts the write and `emit` never performs the
  removal nor returns.  `emitLockTrace` separately records the order of
  lock actions of one `emit` call for the lock-discipline claims.
-/

namespace Events

/-- Width of `usize` on the 64-bit targets the crate is built for; the
`AtomicUsize` counter of `times!` wraps at this modulus. -/
def usizeMod : Nat := 2 ^ 64

/-- `AtomicUsize::fetch_sub(1, SeqCst)`: returns the pre-decrement value and
the wrapped new value. -/
def fetchSub (v : Nat) : Nat × Nat :=
  (v, (v + (usizeMod - 1)) % usizeMod)

/-- The dynamic types that appear in the modelled scenarios; stands for the
`TypeId` of a concrete Rust type used in a handler signature. -/
inductive Ty where
  | int
  | str
deriving DecidableEq

/-- A type-erased argument (`&dyn Any`): a value together with its dynamic
type, recovered by `downcast_ref`. -/
inductive Arg where
  | vInt (n : Int)
  | vStr (s : String)
deriving DecidableEq

/-- The dynamic type of an argument (`Any::type_id`). -/
def Arg.ty : Arg → Ty
  | .vInt _ => .int
  | .vStr _ => .str

/-- `stringify!($type)` for the modelled types. -/
def tyName : Ty → String
  | .int => "i32"
  | .str => "String"

/-- The panic message of the `on!` wrapper when `iter.next()` yields no
argument for a declared parameter (events.rs lines 185-192). -/
def missingMsg (event argName tyN : String) : String :=
  "Ошибка: недостаточно аргументов для обработчика события \"" ++ event ++
    "\". Ожидался аргумент \"" ++ argName ++ "\" типа " ++ tyN

/-- The panic message of the `on!` wrapper when `downcast_ref` fails for a
declared parameter (events.rs lines 194-201). -/
def wrongTypeMsg (argName event tyN : String) : String :=
  "Ошибка: аргумент \"" ++ argName ++ "\" для события \"" ++ event ++
    "\" имеет неверный тип. Ожидался тип " ++ tyN

/-- The panic message of `Option::unwrap` on `None`, raised by the `times!`
wrapper when an argument is missing (events.rs line 366). -/
def unwrapNoneMsg : String :=
  "called `Option::unwrap()` on a `None` value"

/-- The `expect` message of the `times!` wrapper when `downcast_ref` fails
(events.rs line 367): it names neither event, parameter nor type. -/
def timesWrongTypeMsg : String :=
  "Неверный тип аргумента"

/-- Positional argument matching of the closure generated by `on!`
(events.rs lines 182-204): for each declared parameter in order, take the
next argument (panic with `missingMsg` if exhausted) and downcast it
(panic with `wrongTypeMsg` on a type mismatch).  Extra arguments beyond the
declared parameters are ignored, exactly as the generated code ignores the
rest of the iterator.  `none` = all checks passed, `some m` = the closure
panics with message `m`. -/
def typedCheck (event : String) : List (String × Ty) → List Arg → Option String
  | [], _ => none
  | (n, t) :: _, [] => some (missingMsg event n (tyName t))
  | (n, t) :: ps, a :: as =>
    if a.ty = t then typedCheck event ps as
    else some (wrongTypeMsg n event (tyName t))

/-- Positional argument matching of the typed `times!` wrapper
(events.rs lines 364-368): `iter.next().unwrap()` then
`.downcast_ref::<T>().expect("Неверный тип аргумента")`. -/
def countedCheck : List (String × Ty) → List Arg → Option String
  | [], _ => none
  | _ :: _, [] => some unwrapNoneMsg
  | (_, t) :: ps, a :: as =>
    if a.ty = t then countedCheck ps as
    else some timesWrongTypeMsg

/-- The observable behaviour of one registered handler closure (`Handler =
Arc<dyn Fn(&[&dyn Any])>`), labelled with an identifier `id` so that
invocations can be traced:

* `plain id` — a body that returns normally (an `on!`-style handler whose
  body does not fault);
* `panics id msg` — a body that panics with payload `msg`;
* `typed id event params` — the closure generated by `on!` with declared
  parameters `params`: it runs `typedCheck` and panics on a mismatch,
  otherwise the body returns normally;
* `counted id cid` — the argument-less wrapper generated by `times!`
  (lines 332-345): its counter lives at key `cid` of the counter store; the
  closure also captures `event_clone` and a weak reference to the emitter's
  `events` lock for the removal on exhaustion;
* `countedTyped id cid params` — the typed wrapper generated by `times!`
  (lines 361-379). -/
inductive HB where
  | plain (id : Nat)
  | panics (id : Nat) (msg : String)
  | typed (id : Nat) (event : String) (params : List (String × Ty))
  | counted (id : Nat) (cid : Nat)
  | countedTyped (id : Nat) (cid : Nat) (params : List (String × Ty))
deriving DecidableEq

/-- The identifier label of a handler. -/
def HB.hid : HB → Nat
  | .plain id => id
  | .panics id _ => id
  | .typed id _ _ => id
  | .counted id _ => id
  | .countedTyped id _ _ => id

/-- Whether the handler is a `times!` wrapper (holds a decrementing counter
and the self-removal code). -/
def HB.isCounted : HB → Bool
  | .counted _ _ => true
  | .countedTyped _ _ _ => true
  | _ => false

/-- `HashMap::get` on an association list with string keys. -/
def alLookup {α : Type} : List (String × α) → String → Option α
  | [], _ => none
  | (k, v) :: rest, key => if k = key then some v else alLookup rest key

/-- `map.entry(event).or_default().push(listener)` (events.rs line 45):
append to the event's list, creating the entry if absent. -/
def alInsertAppend {α : Type} : List (String × List α) → String → α → List (String × List α)
  | [], key, x => [(key, [x])]
  | (k, v) :: rest, key, x =>
    if k = key then (k, v ++ [x]) :: rest
    else (k, v) :: alInsertAppend rest key x

/-- `HashMap::remove` (events.rs line 83): drop the entry of the key (keys
are unique in a `HashMap`, so dropping the first occurrence is exact). -/
def alRemove {α : Type} : List (String × α) → String → List (String × α)
  | [], _ => []
  | (k, v) :: rest, key => if k = key then rest else (k, v) :: alRemove rest key

/-- Overwrite the value stored at an existing key (`get_mut` followed by
in-place mutation); an absent key leaves the list unchanged. -/
def alSet {α : Type} : List (String × α) → String → α → List (String × α)
  | [], _, _ => []
  | (k, v) :: rest, key, nv =>
    if k = key then (key, nv) :: rest else (k, v) :: alSet rest key nv

/-- Read an `AtomicUsize` cell of the counter store. -/
def ctrGet : List (Nat × Nat) → Nat → Nat
  | [], _ => 0
  | (k, v) :: rest, cid => if k = cid then v else ctrGet rest cid

/-- Write an `AtomicUsize` cell of the counter store, allocating it if new
(`Arc::new(AtomicUsize::new(count))`). -/
def ctrSet : List (Nat × Nat) → Nat → Nat → List (Nat × Nat)
  | [], cid, v => [(cid, v)]
  | (k, w) :: rest, cid, v =>
    if k = cid then (cid, v) :: rest else (k, w) :: ctrSet rest cid v

/-- The state of one `EventEmitter`: the handler table behind
`events: Arc<RwLock<HashMap<String, Vec<Handler>>>>`, together with the
store of the `AtomicUsize` counters captured by its `times!` wrappers
(in the source each counter is a separate `Arc<AtomicUsize>`; the store
keys them by `cid`). -/
structure EventEmitter where
  events : List (String × List HB)
  ctrs : List (Nat × Nat)
deriving DecidableEq

/-- `EventEmitter::default()` / `EventEmitter::new()`. -/
def emptyEmitter : EventEmitter := ⟨[], []⟩

/-- `EventEmitter::on` (events.rs lines 42-46): exclusive access, then
`entry(event).or_default().push(listener)`. -/
def EventEmitter.on (s : EventEmitter) (event : String) (h : HB) : EventEmitter :=
  { s with events := alInsertAppend s.events event h }

/-- `EventEmitter::off` (events.rs lines 81-84): exclusive access, then
`remove(event)`. -/
def EventEmitter.off (s : EventEmitter) (event : String) : EventEmitter :=
  { s with events := alRemove s.events event }

/-- An observable event of one dispatch loop iteration: the handler body ran
normally, or it panicked with the given payload and the panic was caught by
`catch_unwind` (events.rs lines 64-76). -/
inductive Ev where
  | invoked (id : Nat)
  | panicked (id : Nat) (msg : String)
deriving DecidableEq

/-- How one `emit` call ends.  `lockError` models the `Err(LockError)`
branch of line 49, reachable only when the `RwLock` was poisoned by a
writer's panic; no operation of the module panics while holding the write
guard, so the single-threaded model never produces it.  `deadlock` records
that a handler re-acquired the emitter's `RwLock` in write mode while
`emit`'s read guard was still held, so the call never returns. -/
inductive EmitOutcome where
  | ok
  | noListeners
  | lockError (msg : String)
  | deadlock
deriving DecidableEq

/-- What one `emit` call produces: its return value (or `deadlock`), the
trace of handler-body outcomes in invocation order, and the final counter
store.  The handler table itself is unchanged by `emit`: the only code that
would mutate it from inside the dispatch loop is the `times!` removal, and
that removal is never reached (its `events.write()` blocks against the
still-held read guard). -/
structure EmitRes where
  result : EmitOutcome
  trace : List Ev
  ctrs : List (Nat × Nat)
deriving DecidableEq

/-- The dispatch loop of `EventEmitter::emit` (events.rs lines 63-77) over
the snapshot `hs`, with the read guard held throughout.  Each iteration
wraps the handler call in `catch_unwind`, so a panicking body yields a
`panicked` trace entry and the loop continues.  A `times!` wrapper first
performs `fetch_sub`, runs its body if the pre-decrement value `v` is at
least 1, and if `v = 1` calls `events.write()` — which blocks against the
read guard, ending the whole call in `deadlock` (a panic raised by the
typed wrapper's argument check skips the removal code, so it does not
deadlock: the panic is caught by `catch_unwind` like any other). -/
def runHandlers : List HB → List Arg → List (Nat × Nat) → List Ev × List (Nat × Nat) × Bool
  | [], _, ctrs => ([], ctrs, false)
  | h :: rest, args, ctrs =>
    match h with
    | .plain id =>
      let (evs, c, d) := runHandlers rest args ctrs
      (.invoked id :: evs, c, d)
    | .panics id m =>
      let (evs, c, d) := runHandlers rest args ctrs
      (.panicked id m :: evs, c, d)
    | .typed id ev ps =>
      match typedCheck ev ps args with
      | none =>
        let (evs, c, d) := runHandlers rest args ctrs
        (.invoked id :: evs, c, d)
      | some m =>
        let (evs, c, d) := runHandlers rest args ctrs
        (.panicked id m :: evs, c, d)
    | .counted id cid =>
      let (v, nv) := fetchSub (ctrGet ctrs cid)
      let ctrs' := ctrSet ctrs cid nv
      if v = 1 then ([.invoked id], ctrs', true)
      else if 1 ≤ v then
        let (evs, c, d) := runHandlers rest args ctrs'
        (.invoked id :: evs, c, d)
      else
        runHandlers rest args ctrs'
    | .countedTyped id cid ps =>
      let (v, nv) := fetchSub (ctrGet ctrs cid)
      let ctrs' := ctrSet ctrs cid nv
      if 1 ≤ v then
        match countedCheck ps args with
        | some m =>
          let (evs, c, d) := runHandlers rest args ctrs'
          (.panicked id m :: evs, c, d)
        | none =>
          if v = 1 then ([.invoked id], ctrs', true)
          else
            let (evs, c, d) := runHandlers rest args ctrs'
            (.invoked id :: evs, c, d)
      else
        runHandlers rest args ctrs'

/-- `EventEmitter::emit` (events.rs lines 48-79): acquire the read lock,
look the event up and clone its handler list; absent or empty list gives
`Err(NoListeners)`; otherwise run the dispatch loop over the snapshot. -/
def emit (s : EventEmitter) (event : String) (args : List Arg) : EmitRes :=
  match alLookup s.events event with
  | none => ⟨.noListeners, [], s.ctrs⟩
  | some hs =>
    if hs.isEmpty then ⟨.noListeners, [], s.ctrs⟩
    else
      let (evs, c, d) := runHandlers hs args s.ctrs
      ⟨if d then .deadlock else .ok, evs, c⟩

/-- The registration effect of `times!` (events.rs lines 320-347): allocate
the counter cell `cid` at value `count` and register the counted wrapper
under `event` via `EventEmitter::on`. -/
def timesRegister (s : EventEmitter) (event : String) (id cid count : Nat) : EventEmitter :=
  ⟨alInsertAppend s.events event (.counted id cid), ctrSet s.ctrs cid (count % usizeMod)⟩

/-- A lock action performed by `EventEmitter::emit` on the emitter's
`RwLock`, or a handler-body invocation, in program order. -/
inductive LockAct where
  | acquireRead
  | releaseRead
  | invoke (id : Nat)
deriving DecidableEq

/-- The sequence of lock actions of one `emit` call (events.rs lines
48-79), read off the source: the guard `lock` is obtained on line 49 and,
being an ordinary local binding, is dropped when the function returns —
after the dispatch loop.  So the trace is acquire, then every handler
invocation of the snapshot, then release.  (On the `NoListeners` paths the
early `return` drops the guard with no invocation in between.) -/
def emitLockTrace (s : EventEmitter) (event : String) : List LockAct :=
  match alLookup s.events event with
  | none => [.acquireRead, .releaseRead]
  | some hs =>
    if hs.isEmpty then [.acquireRead, .releaseRead]
    else .acquireRead :: (hs.map (fun h => LockAct.invoke h.hid) ++ [.releaseRead])

/-- Whether a lock trace releases the read lock before the first handler
invocation: scanning left to right, a release is seen before any invoke. -/
def releasedBeforeFirstInvoke : List LockAct → Bool
  | [] => false
  | .releaseRead :: _ => true
  | .acquireRead :: rest => releasedBeforeFirstInvoke rest
  | .invoke _ :: _ => false

/-- The process-wide registry `EMITTERS: Mutex<HashMap<String, EventEmitter>>`
(events.rs lines 11-17).  An `EventEmitter` value in the map is a pair of
`Arc`s, so `get`/`get_mut` followed by mutation through the `Arc` is
modelled as replacing the entry's state (`alSet`). -/
abbrev Registry : Type := List (String × EventEmitter)

/-- The registry's initial contents: one emitter under `"default"`. -/
def initialRegistry : Registry := [("default", emptyEmitter)]

/-- `entry(String::from(id)).or_insert_with(EventEmitter::new)`
(events.rs lines 122-124 and 148-150): get-or-create of an id. -/
def getOrCreate (reg : Registry) (id : String) : Registry :=
  match alLookup reg id with
  | some _ => reg
  | none => reg ++ [(id, emptyEmitter)]

/-- The `on!` macro's emitter resolution (events.rs lines 177-208): read
`CURRENT_EMITTER_ID` (parameter `cur`), lock the registry, and only
`if let Some(emitter) = emitters.get_mut(&emitter_id)` register the
handler — an absent id makes the whole macro do nothing, silently (there
is no `else` branch). -/
def onBang (reg : Registry) (cur event : String) (h : HB) : Registry :=
  match alLookup reg cur with
  | some em => alSet reg cur (em.on event h)
  | none => reg

/-- The `emit!` macro (events.rs lines 228-240): read `CURRENT_EMITTER_ID`,
lock the registry, and dispatch on the found emitter (its `Err` results are
only written to stderr).  `none` models the `else` branch: the id is
absent, `"Emitter with id .. not found"` is printed and no emitter is
created and nothing is dispatched. -/
def emitBang (reg : Registry) (cur event : String) (args : List Arg) : Option EmitRes :=
  match alLookup reg cur with
  | some em => some (emit em event args)
  | none => none

/-- The `off!` macro (events.rs lines 254-265): read `CURRENT_EMITTER_ID`,
lock the registry, and only `if let Some(emitter) = emitters.get_mut(..)`
remove the event's handlers — an absent id is a silent no-op. -/
def offBang (reg : Registry) (cur event : String) : Registry :=
  match alLookup reg cur with
  | some em => alSet reg cur (em.off event)
  | none => reg

/-- `use_emitter!` (events.rs lines 142-152): set `CURRENT_EMITTER_ID` to
`id`, then get-or-create `id` in the registry.  Returns the new registry
and the new current id. -/
def useEmitter (reg : Registry) (id : String) : Registry × String :=
  (getOrCreate reg id, id)

/-- The result of `Mutex::lock` on the registry: `ok` normally, `poisoned`
(carrying the inner state) when a prior holder panicked. -/
inductive LockRes (α : Type) where
  | ok (val : α)
  | poisoned (val : α)

/-- Acquire the registry mutex; `p` says whether it is poisoned. -/
def lockMutex (p : Bool) (reg : Registry) : LockRes Registry :=
  if p then .poisoned reg else .ok reg

/-- `.unwrap_or_else(|e| e.into_inner())` (events.rs lines 179 and 230):
recover the inner state of a poisoned lock and proceed. -/
def LockRes.intoInner {α : Type} : LockRes α → α
  | .ok a => a
  | .poisoned a => a

/-- `.unwrap()` (events.rs lines 122, 148, 258, 326, 355): `none` models the
panic that propagates out of the macro when the lock is poisoned. -/
def LockRes.unwrapOrPanic {α : Type} : LockRes α → Option α
  | .ok a => some a
  | .poisoned _ => none

/-- `on!` including its registry-lock acquisition (line 179 uses
`unwrap_or_else(|e| e.into_inner())`): never panics on poisoning. -/
def onBangLocked (p : Bool) (reg : Registry) (cur event : String) (h : HB) : Option Registry :=
  some (onBang (lockMutex p reg).intoInner cur event h)

/-- `emit!` including its registry-lock acquisition (line 230 uses
`unwrap_or_else(|e| e.into_inner())`): never panics on poisoning. -/
def emitBangLocked (p : Bool) (reg : Registry) (cur event : String) (args : List Arg) :
    Option (Option EmitRes) :=
  some (emitBang (lockMutex p reg).intoInner cur event args)

/-- `off!` including its registry-lock acquisition (line 258 uses
`.unwrap()`): panics (`none`) when the lock is poisoned. -/
def offBangLocked (p : Bool) (reg : Registry) (cur event : String) : Option Registry :=
  (lockMutex p reg).unwrapOrPanic.map (fun r => offBang r cur event)

/-- `use_emitter!` including its registry-lock acquisition (line 148 uses
`.unwrap()`): panics (`none`) when the lock is poisoned (the thread-local
current id has already been set by then). -/
def useEmitterLocked (p : Bool) (reg : Registry) (id : String) : Option (Registry × String) :=
  (lockMutex p reg).unwrapOrPanic.map (fun r => useEmitter r id)

/-- `new_emitter!` including its registry-lock acquisition (line 122 uses
`.unwrap()`): panics (`none`) when the lock is poisoned. -/
def newEmitterLocked (p : Bool) (reg : Registry) (id : String) : Option Registry :=
  (lockMutex p reg).unwrapOrPanic.map (fun r => getOrCreate r id)

/-- `times!` including its registry-lock acquisition (lines 326 and 355 use
`.unwrap()`): panics (`none`) when the lock is poisoned, and also panics
(`emitters.get_mut(&emitter_id).unwrap()`, line 327) when the current id is
absent from the registry. -/
def timesLocked (p : Bool) (reg : Registry) (cur event : String) (id cid count : Nat) :
    Option Registry :=
  (lockMutex p reg).unwrapOrPanic.bind fun r =>
    match alLookup r cur with
    | some em => some (alSet r cur (timesRegister em event id cid count))
    | none => none

/-- The counter value of a `times!` wrapper after `n` invocations, starting
from `count`: each invocation performs one wrapping `fetch_sub`. -/
def ctrAfter (count : Nat) : Nat → Nat
  | 0 => count % usizeMod
  | n + 1 => (fetchSub (ctrAfter count n)).2

/-- Whether the wrapped body of a `times!(event, count, ..)` handler runs on
its `i`-th invocation (1-based): the wrapper runs the body exactly when the
pre-decrement counter value is at least 1 (events.rs lines 333-335). -/
def bodyRunsAt (count i : Nat) : Bool :=
  decide (1 ≤ (fetchSub (ctrAfter count (i - 1))).1)

/-- The stderr line `emit` prints for one caught handler panic (events.rs
lines 71-75): the payload is a `Box<dyn Any>`, whose `Debug` form carries
no message text, and `loc` is whatever `extract_user_location` produced
from the backtrace (best-effort, `"unknown location"` when nothing in
`src/main.rs` is found). -/
def logLine (loc : String) : String :=
  "emitter error 'Handler panicked: Any \x7b .. \x7d' at " ++ loc

/-- The log entry (if any) for one trace event: caught panics are logged,
normal returns are not. -/
def logOf (loc : String) : Ev → Option String
  | .panicked _ _ => some (logLine loc)
  | .invoked _ => none

/-- All stderr lines of one `emit` call, in order. -/
def emitLogs (r : EmitRes) (loc : String) : List String :=
  r.trace.filterMap (logOf loc)

/-- The per-handler outcome of one dispatch iteration for handlers that are
not `times!` wrappers (their outcome depends only on the arguments, not on
the counter store).  The counted cases are arbitrary placeholders, never
used under an `isCounted = false` hypothesis. -/
def stepOf (args : List Arg) : HB → Ev
  | .plain id => .invoked id
  | .panics id m => .panicked id m
  | .typed id ev ps =>
    match typedCheck ev ps args with
    | none => .invoked id
    | some m => .panicked id m
  | .counted id _ => .invoked id
  | .countedTyped id _ _ => .invoked id

/-- `on` applied to a list of plain handlers in order (a sequence of N
`subscribe` calls for the same event). -/
def onPlainMany (s : EventEmitter) (event : String) (ids : List Nat) : EventEmitter :=
  ids.foldl (fun acc i => acc.on event (.plain i)) s

/-! ### Supporting lemmas about the association-list operations -/

theorem alLookup_insertAppend_self {α : Type} (l : List (String × List α)) (k : String)
    (x : α) : alLookup (alInsertAppend l k x) k = some ((alLookup l k).getD [] ++ [x]) := by
  induction l with
  | nil => simp [alInsertAppend, alLookup]
  | cons hd tl ih =>
    obtain ⟨k', v⟩ := hd
    by_cases hk : k' = k
    · subst hk
      simp [alInsertAppend, alLookup]
    · simp [alInsertAppend, alLookup, hk, ih]

theorem alLookup_insertAppend_ne {α : Type} (l : List (String × List α)) (k k' : String)
    (x : α) (hk : k ≠ k') : alLookup (alInsertAppend l k x) k' = alLookup l k' := by
  induction l with
  | nil => simp [alInsertAppend, alLookup, hk]
  | cons hd tl ih =>
    obtain ⟨k'', v⟩ := hd
    by_cases h : k'' = k
    · subst h
      simp [alInsertAppend, alLookup, hk]
    · simp only [alInsertAppend, if_neg h]
      by_cases h' : k'' = k'
      · subst h'
        simp [alLookup]
      · simp [alLookup, h', ih]

theorem alLookup_remove_ne {α : Type} (l : List (String × α)) (k k' : String)
    (hk : k ≠ k') : alLookup (alRemove l k) k' = alLookup l k' := by
  induction l with
  | nil => simp [alRemove]
  | cons hd tl ih =>
    obtain ⟨k'', v⟩ := hd
    by_cases h : k'' = k
    · subst h
      simp [alRemove, alLookup, hk, ih]
    · simp only [alRemove, if_neg h]
      by_cases h' : k'' = k'
      · subst h'
        simp [alLookup]
      · simp [alLookup, h', ih]

theorem alLookup_set_self {α : Type} (l : List (String × α)) (k : String) (v w : α)
    (hl : alLookup l k = some v) : alLookup (alSet l k w) k = some w := by
  induction l with
  | nil => simp [alLookup] at hl
  | cons hd tl ih =>
    obtain ⟨k', u⟩ := hd
    by_cases h : k' = k
    · subst h
      simp [alSet, alLookup]
    · simp only [alLookup, if_neg h] at hl
      simp [alSet, alLookup, h, ih hl]

/-! ### Supporting lemmas about the dispatch loop -/

theorem runHandlers_noCounted (hs : List HB) (args : List Arg) (ctrs : List (Nat × Nat))
    (hnc : ∀ h ∈ hs, h.isCounted = false) :
    runHandlers hs args ctrs = (hs.map (stepOf args), ctrs, false) := by
  induction hs with
  | nil => simp [runHandlers]
  | cons h rest ih =>
    have hh : h.isCounted = false := hnc h (by simp)
    have hrest : ∀ h' ∈ rest, h'.isCounted = false := fun h' hm => hnc h' (by simp [hm])
    cases h with
    | plain id => simp [runHandlers, stepOf, ih hrest]
    | panics id m => simp [runHandlers, stepOf, ih hrest]
    | typed id ev ps =>
      cases hc : typedCheck ev ps args with
      | none => simp [runHandlers, stepOf, hc, ih hrest]
      | some m => simp [runHandlers, stepOf, hc, ih hrest]
    | counted id cid => simp [HB.isCounted] at hh
    | countedTyped id cid ps => simp [HB.isCounted] at hh

theorem onPlainMany_lookup (ids : List Nat) (s : EventEmitter) (event : String) :
    alLookup (onPlainMany s event ids).events event
      = if ids.isEmpty then alLookup s.events event
        else some ((alLookup s.events event).getD [] ++ ids.map HB.plain) := by
  induction ids generalizing s with
  | nil => simp [onPlainMany]
  | cons i rest ih =>
    have step : onPlainMany s event (i :: rest) = onPlainMany (s.on event (.plain i)) event rest := by
      simp [onPlainMany]
    have hone : alLookup (s.on event (.plain i)).events event
        = some ((alLookup s.events event).getD [] ++ [HB.plain i]) :=
      alLookup_insertAppend_self s.events event (HB.plain i)
    rw [step, ih (s.on event (.plain i)), hone]
    cases rest with
    | nil => simp
    | cons j rest' => simp

/-! ### Supporting lemmas about the wrapped counter -/

theorem usizeMod_eq : usizeMod = 18446744073709551616 := by norm_num [usizeMod]

theorem ctrAfter_closed (c : Nat) (n : Nat) :
    ctrAfter c n = (c % usizeMod + (usizeMod - 1) * n) % usizeMod := by
  induction n with
  | zero => simp [ctrAfter]
  | succ m ih =>
    have h1 : ctrAfter c (m + 1) = (ctrAfter c m + (usizeMod - 1)) % usizeMod := rfl
    have h2 : c % usizeMod + (usizeMod - 1) * m + (usizeMod - 1)
        = c % usizeMod + (usizeMod - 1) * (m + 1) := by ring
    rw [h1, ih, Nat.mod_add_mod, h2]

theorem bodyRunsAt_zero_later (i : Nat) (h2 : 2 ≤ i) (hM : i ≤ usizeMod) :
    bodyRunsAt 0 i = true := by
  have hc : ctrAfter 0 (i - 1) = usizeMod - (i - 1) := by
    rw [ctrAfter_closed]
    rw [usizeMod_eq] at *
    omega
  rw [bodyRunsAt, fetchSub, hc]
  rw [usizeMod_eq] at *
  simp only [decide_eq_true_eq]
  omega

/-! ### The claims -/

/-- Claim C1 (code bug): the spec requires `EventEmitter::emit` to release
the handler-table lock before any handler body is invoked, so that a
handler calling register/publish/unsubscribe on the same emitter does not
deadlock.  The code clones the handler list but never drops the read guard
(`lock`, events.rs line 49) before the dispatch loop: at the failing input
— an emitter with one handler registered for `"e"` — the lock trace of
`emit "e"` is acquire, invoke, release, and the release does not precede
the first invocation.  A handler that re-acquires the lock in write mode
therefore blocks against `emit`'s own read guard. -/
theorem c1_lock_held_through_dispatch :
    emitLockTrace ⟨[("e", [.plain 0])], []⟩ "e"
      = [.acquireRead, .invoke 0, .releaseRead]
    ∧ releasedBeforeFirstInvoke (emitLockTrace ⟨[("e", [.plain 0])], []⟩ "e") = false := by
  constructor
  · rfl
  · rfl

/-- Claim C3: during a publish with at least one registered handler, a
panic inside one handler body is caught per handler (`catch_unwind`,
events.rs lines 64-76): every handler of the snapshot is still reached, in
order, each caught fault produces one stderr log line carrying the
best-effort source location, and `emit` itself returns `Ok` — the fault
does not propagate to the caller.  (The hypothesis excludes `times!`
wrappers, whose exhausting invocation never terminates, see C5: they fault
by blocking, not by panicking.) -/
theorem c3_handler_panic_isolated (s : EventEmitter) (event : String) (hs : List HB)
    (args : List Arg) (loc : String)
    (hlook : alLookup s.events event = some hs) (hne : hs ≠ [])
    (hnc : ∀ h ∈ hs, h.isCounted = false) :
    (emit s event args).result = .ok
    ∧ (emit s event args).trace = hs.map (stepOf args)
    ∧ emitLogs (emit s event args) loc = (hs.map (stepOf args)).filterMap (logOf loc) := by
  have hrun := runHandlers_noCounted hs args s.ctrs hnc
  have hemp : hs.isEmpty = false := by
    cases hs with
    | nil => exact absurd rfl hne
    | cons a l => rfl
  refine ⟨?_, ?_, ?_⟩ <;>
    simp [emit, hlook, hemp, hrun, emitLogs]

/-- Witness for C3: a publish to an event with a panicking handler followed
by a plain one; the panic is caught and logged, the second handler still
runs, and the publish returns `Ok`. -/
theorem c3_witness :
    (emit ⟨[("e", [.panics 0 "boom", .plain 1])], []⟩ "e" []).result = .ok
    ∧ (emit ⟨[("e", [.panics 0 "boom", .plain 1])], []⟩ "e" []).trace
        = ([HB.panics 0 "boom", HB.plain 1].map (stepOf []))
    ∧ emitLogs (emit ⟨[("e", [.panics 0 "boom", .plain 1])], []⟩ "e" []) "src/main.rs:7"
        = (([HB.panics 0 "boom", HB.plain 1].map (stepOf [])).filterMap
            (logOf "src/main.rs:7")) :=
  c3_handler_panic_isolated ⟨[("e", [.panics 0 "boom", .plain 1])], []⟩ "e"
    [.panics 0 "boom", .plain 1] [] "src/main.rs:7" rfl (by decide) (by decide)

/-- Claim C4: `on` appends the new handler after all previously registered
handlers of the event, creating the list if absent (first conjunct, for any
prior state); and a sequence of N registrations to one event followed by
one publish invokes each of the N handlers exactly once, in registration
order (second conjunct: the dispatch trace is exactly the registered ids in
order). -/
theorem c4_registration_order :
    (∀ (s : EventEmitter) (event : String) (h : HB),
        alLookup (s.on event h).events event
          = some ((alLookup s.events event).getD [] ++ [h]))
    ∧ (∀ (event : String) (ids : List Nat) (args : List Arg),
        (emit (onPlainMany emptyEmitter event ids) event args).trace
          = ids.map Ev.invoked) := by
  constructor
  · intro s event h
    exact alLookup_insertAppend_self s.events event h
  · intro event ids args
    cases ids with
    | nil => simp [onPlainMany, emit, emptyEmitter, alLookup]
    | cons i rest =>
      have hlook : alLookup (onPlainMany emptyEmitter event (i :: rest)).events event
          = some ((i :: rest).map HB.plain) := by
        simpa [emptyEmitter, alLookup] using onPlainMany_lookup (i :: rest) emptyEmitter event
      have hnc : ∀ h ∈ (i :: rest).map HB.plain, h.isCounted = false := by
        intro h hm
        simp only [List.mem_map] at hm
        obtain ⟨j, _, rfl⟩ := hm
        rfl
      have hrun := runHandlers_noCounted ((i :: rest).map HB.plain) args
        (onPlainMany emptyEmitter event (i :: rest)).ctrs hnc
      have hcomp : stepOf args ∘ HB.plain = Ev.invoked := funext (fun j => rfl)
      simp only [List.map_cons] at hrun
      simp [emit, hlook, hrun, List.map_map, hcomp, stepOf]

/-- Claim C6: publishing an event whose handler-list entry is absent or
empty returns the `NoListeners` signal and invokes no handler (events.rs
lines 53-61). -/
theorem c6_no_listeners (s : EventEmitter) (event : String) (args : List Arg)
    (h : alLookup s.events event = none ∨ alLookup s.events event = some []) :
    (emit s event args).result = .noListeners ∧ (emit s event args).trace = [] := by
  cases h with
  | inl hnone => exact ⟨by simp [emit, hnone], by simp [emit, hnone]⟩
  | inr hempty => exact ⟨by simp [emit, hempty], by simp [emit, hempty]⟩

/-- Witness for C6: publishing on a fresh emitter returns `NoListeners`
with an empty invocation trace. -/
theorem c6_witness :
    (emit emptyEmitter "e" []).result = .noListeners
    ∧ (emit emptyEmitter "e" []).trace = [] :=
  c6_no_listeners emptyEmitter "e" [] (Or.inl rfl)

/-- Claim C10: `off e1` and `on e1 h` leave the handler list stored under a
different event `e2` unchanged — each operation only touches the table
entry of the event it names. -/
theorem c10_other_event_unchanged (s : EventEmitter) (e1 e2 : String) (h : HB)
    (hne : e1 ≠ e2) :
    alLookup (s.off e1).events e2 = alLookup s.events e2
    ∧ alLookup (s.on e1 h).events e2 = alLookup s.events e2 :=
  ⟨alLookup_remove_ne s.events e1 e2 hne,
   alLookup_insertAppend_ne s.events e1 e2 h hne⟩

/-- Counterexample for C2: the spec's own scenario — a handler declared
with one `String` parameter, published with the integer `42`.  The
generated wrapper panics with the full descriptive message, but that panic
is raised inside the handler and caught by `emit`'s per-handler
`catch_unwind` (events.rs line 64): `emit` returns `Ok(())`.  The mismatch
is therefore contained and logged, not a fatal, caller-visible failure of
the publish, contrary to the claim. -/
theorem c2_counterexample_mismatch_contained :
    (emit ⟨[("greet", [.typed 0 "greet" [("name", .str)]])], []⟩ "greet"
        [.vInt 42]).result = .ok
    ∧ (emit ⟨[("greet", [.typed 0 "greet" [("name", .str)]])], []⟩ "greet"
        [.vInt 42]).trace = [.panicked 0 (wrongTypeMsg "name" "greet" "String")] := by
  constructor
  · rfl
  · rfl

/-- Claim C2 as amended: a missing argument or a dynamic type mismatch
makes the generated wrapper panic — for `on!` handlers with a message
naming the event, the offending parameter and the expected type; for
`times!` handlers with a generic message naming none of them — but the
panic is raised inside the handler body, so `emit`'s per-handler
`catch_unwind` contains it: the remaining handlers still run and the
publish returns `Ok`, the violation being logged rather than surfaced to
the caller. -/
theorem c2_amended_mismatch_panics_contained (e n : String) (t : Ty) (a : Arg)
    (id0 id1 : Nat) (hty : a.ty ≠ t) :
    typedCheck e [(n, t)] [] = some (missingMsg e n (tyName t))
    ∧ typedCheck e [(n, t)] [a] = some (wrongTypeMsg n e (tyName t))
    ∧ countedCheck [(n, t)] [a] = some timesWrongTypeMsg
    ∧ (emit ⟨[(e, [.typed id0 e [(n, t)], .plain id1])], []⟩ e [a]).result = .ok
    ∧ (emit ⟨[(e, [.typed id0 e [(n, t)], .plain id1])], []⟩ e [a]).trace
        = [.panicked id0 (wrongTypeMsg n e (tyName t)), .invoked id1] := by
  refine ⟨rfl, ?_, ?_, ?_, ?_⟩
  · simp [typedCheck, hty]
  · simp [countedCheck, hty]
  · simp [emit, alLookup, runHandlers, typedCheck, hty]
  · simp [emit, alLookup, runHandlers, typedCheck, hty]

/-- Witness for the amended C2 at the spec's concrete scenario. -/
theorem c2_amended_witness :
    typedCheck "greet" [("name", Ty.str)] []
        = some (missingMsg "greet" "name" (tyName Ty.str))
    ∧ typedCheck "greet" [("name", Ty.str)] [Arg.vInt 42]
        = some (wrongTypeMsg "name" "greet" (tyName Ty.str))
    ∧ countedCheck [("name", Ty.str)] [Arg.vInt 42] = some timesWrongTypeMsg
    ∧ (emit ⟨[("greet", [.typed 7 "greet" [("name", Ty.str)], .plain 8])], []⟩ "greet"
        [Arg.vInt 42]).result = .ok
    ∧ (emit ⟨[("greet", [.typed 7 "greet" [("name", Ty.str)], .plain 8])], []⟩ "greet"
        [Arg.vInt 42]).trace
        = [.panicked 7 (wrongTypeMsg "name" "greet" (tyName Ty.str)), .invoked 8] :=
  c2_amended_mismatch_panics_contained "greet" "name" Ty.str (Arg.vInt 42) 7 8 (by decide)

/-- The emitter right after `times!("e", 3, ..)` on a fresh emitter, and
the successive `emit "e"` calls: each publish starts from the previous
publish's counter store (the handler table is never changed by `emit`). -/
def timesThreeState : EventEmitter := timesRegister emptyEmitter "e" 0 0 3

/-- First publish after `times!("e", 3, ..)`. -/
def timesThreeEmit1 : EmitRes := emit timesThreeState "e" []

/-- State after the first publish. -/
def timesThreeState1 : EventEmitter := ⟨timesThreeState.events, timesThreeEmit1.ctrs⟩

/-- Second publish. -/
def timesThreeEmit2 : EmitRes := emit timesThreeState1 "e" []

/-- State after the second publish. -/
def timesThreeState2 : EventEmitter := ⟨timesThreeState1.events, timesThreeEmit2.ctrs⟩

/-- Third publish: the exhausting invocation. -/
def timesThreeEmit3 : EmitRes := emit timesThreeState2 "e" []

/-- Claim C5 (code bug): after `subscribe_times("e", 3, h)` the first two
publishes run the body and return `Ok`, but the third — the exhausting
invocation, pre-decrement counter 1 — runs the body and then calls
`events.write()` for the removal (events.rs lines 339-343) while `emit`
still holds the read guard on the same `RwLock`, so the third publish
blocks forever instead of returning: the removal never happens and the
claimed fourth publish (returning `NoListeners`) is never reached.  The
handler table is also unchanged, so even under the panic variant of
re-entrant `RwLock` acquisition the fourth publish would find the handler
still registered and return `Ok`, not `NoListeners`. -/
theorem c5_third_publish_never_returns :
    timesThreeEmit1.result = .ok ∧ timesThreeEmit1.trace = [.invoked 0]
    ∧ timesThreeEmit2.result = .ok ∧ timesThreeEmit2.trace = [.invoked 0]
    ∧ timesThreeEmit3.result = .deadlock ∧ timesThreeEmit3.trace = [.invoked 0]
    ∧ timesThreeState2.events = timesThreeState.events := by
  refine ⟨rfl, rfl, rfl, rfl, rfl, rfl, rfl⟩

/-- Counterexample for C7: with the active id `"x"` absent from the
registry, `on!` leaves the registry unchanged and registers nothing — no
emitter is created (the claimed get-or-create does not happen) and the
operation silently does nothing; `emit!` dispatches nothing (only printing
an error), `off!` is a silent no-op. -/
theorem c7_counterexample_no_get_or_create :
    onBang initialRegistry "x" "e" (.plain 0) = initialRegistry
    ∧ alLookup (onBang initialRegistry "x" "e" (.plain 0)) "x" = none
    ∧ emitBang initialRegistry "x" "e" [] = none
    ∧ offBang initialRegistry "x" "e" = initialRegistry := by
  refine ⟨rfl, rfl, rfl, rfl⟩

/-- Claim C7 as amended: the convenience operations resolve their target by
reading the calling context's active id and performing a plain lookup in
the registry — not get-or-create.  When the id is present the operation
acts on that emitter (this theorem); when it is absent, `on!` and `off!`
silently do nothing and `emit!` dispatches nothing (the counterexample).
Only `use_emitter!`/`new_emitter!` perform get-or-create, and since the
registry starts with `"default"` and the active id is only ever set by
`use_emitter!`, an absent active id cannot arise through this module's own
operations. -/
theorem c7_amended_lookup_only (reg : Registry) (cur event : String) (h : HB)
    (args : List Arg) (em : EventEmitter) (hlook : alLookup reg cur = some em) :
    alLookup (onBang reg cur event h) cur = some (em.on event h)
    ∧ emitBang reg cur event args = some (emit em event args)
    ∧ alLookup (offBang reg cur event) cur = some (em.off event) := by
  refine ⟨?_, ?_, ?_⟩
  · rw [onBang, hlook]
    exact alLookup_set_self reg cur em (em.on event h) hlook
  · rw [emitBang, hlook]
  · rw [offBang, hlook]
    exact alLookup_set_self reg cur em (em.off event) hlook

/-- Witness for the amended C7 at the initial registry and the default id. -/
theorem c7_amended_witness :
    alLookup (onBang initialRegistry "default" "e" (.plain 0)) "default"
        = some (emptyEmitter.on "e" (.plain 0))
    ∧ emitBang initialRegistry "default" "e" [] = some (emit emptyEmitter "e" [])
    ∧ alLookup (offBang initialRegistry "default" "e") "default"
        = some (emptyEmitter.off "e") :=
  c7_amended_lookup_only initialRegistry "default" "e" (.plain 0) [] emptyEmitter rfl

/-- Counterexample for C8: with the registry mutex poisoned, `off!`,
`use_emitter!`, `new_emitter!` and `times!` all call `.unwrap()` on the
lock result and panic — the poisoning propagates out of the operation
instead of being recovered, already at the concrete initial registry. -/
theorem c8_counterexample_unwrap_panics :
    offBangLocked true initialRegistry "default" "e" = none
    ∧ useEmitterLocked true initialRegistry "main" = none
    ∧ newEmitterLocked true initialRegistry "x" = none
    ∧ timesLocked true initialRegistry "default" "e" 0 0 3 = none := by
  refine ⟨rfl, rfl, rfl, rfl⟩

/-- Claim C8 as amended: only `on!` and `emit!` acquire the registry lock
with `unwrap_or_else(|e| e.into_inner())` and so recover the best-effort
inner state of a poisoned lock and proceed exactly as in the unpoisoned
case; `off!`, `use_emitter!`, `new_emitter!` and `times!` acquire it with
`.unwrap()` and propagate the poisoning as a panic. -/
theorem c8_amended_poison_recovery_split (reg : Registry) (cur event id : String)
    (h : HB) (args : List Arg) (hid cid count : Nat) :
    onBangLocked true reg cur event h = some (onBang reg cur event h)
    ∧ emitBangLocked true reg cur event args = some (emitBang reg cur event args)
    ∧ offBangLocked true reg cur event = none
    ∧ useEmitterLocked true reg id = none
    ∧ newEmitterLocked true reg id = none
    ∧ timesLocked true reg cur event hid cid count = none
    ∧ onBangLocked false reg cur event h = some (onBang reg cur event h)
    ∧ offBangLocked false reg cur event = some (offBang reg cur event) :=
  ⟨rfl, rfl, rfl, rfl, rfl, rfl, rfl, rfl⟩

/-- Claim C9: `subscribe_times(event, 0, handler)` — the counter is a
`usize` decremented with wraparound, so the wrapped body does not run on
the first invocation (pre-decrement value 0) and runs on every subsequent
invocation, the counter having wrapped to `usize::MAX`.  Invocations are
numbered 1-based; the bound `i ≤ 2^64` covers every invocation the wrapper
can receive, since on invocation `2^64` the pre-decrement value is 1 and
the wrapper enters its removal branch (see C5), after which no further
invocation reaches it.  The final conjuncts ground the counter model in
`emit`: on a fresh `times!("e", 0, ..)` registration the first publish runs
no body and leaves the counter at `usize::MAX`, and the second publish runs
the body. -/
theorem c9_count_zero_skips_only_first :
    bodyRunsAt 0 1 = false
    ∧ (∀ i : Nat, 2 ≤ i → i ≤ usizeMod → bodyRunsAt 0 i = true)
    ∧ (fetchSub 0).2 = usizeMod - 1
    ∧ (emit (timesRegister emptyEmitter "e" 0 0 0) "e" []).result = .ok
    ∧ (emit (timesRegister emptyEmitter "e" 0 0 0) "e" []).trace = []
    ∧ (emit (timesRegister emptyEmitter "e" 0 0 0) "e" []).ctrs = [(0, usizeMod - 1)]
    ∧ (emit ⟨(timesRegister emptyEmitter "e" 0 0 0).events,
        (emit (timesRegister emptyEmitter "e" 0 0 0) "e" []).ctrs⟩ "e" []).trace
        = [.invoked 0] := by
  refine ⟨rfl, bodyRunsAt_zero_later, rfl, rfl, rfl, rfl, rfl⟩

/-- Witness for C9 at a concrete invocation index: the body is skipped on
invocation 1 and runs on invocation 5. -/
theorem c9_witness : bodyRunsAt 0 5 = true :=
  c9_count_zero_skips_only_first.2.1 5 (by decide) (by decide)

/-- Witness for C10: on a concrete two-event table, removing and
registering under `"a"` leaves the list under `"b"` unchanged. -/
theorem c10_witness :
    alLookup ((⟨[("a", [.plain 0]), ("b", [.plain 1])], []⟩ : EventEmitter).off "a").events "b"
        = alLookup ([("a", [.plain 0]), ("b", [HB.plain 1])]) "b"
    ∧ alLookup ((⟨[("a", [.plain 0]), ("b", [.plain 1])], []⟩ : EventEmitter).on "a"
          (.plain 2)).events "b"
        = alLookup ([("a", [.plain 0]), ("b", [HB.plain 1])]) "b" :=
  c10_other_event_unchanged ⟨[("a", [.plain 0]), ("b", [.plain 1])], []⟩ "a" "b"
    (.plain 2) (by decide)

end Events
